import Mathlib

/-!
Verification development for the CuraLoop caregiving-companion repository.

Part 1 embeds the JavaScript front-end service
(`chatbot-app/services/anthropicService.js`) and the chat screen
(`submissions/Curaloop/code/chatbot-app/screens/ChatScreen.js`) as pure
Lean functions: the asynchronous outcome of the external language API is
made an explicit parameter, and the module-level mutable rotation index of
the mock-response table is threaded through as explicit state.

Part 2 models the Conversational Session Engine (documented in the
repository as `app/patient/regular_chat.py`, whose implementation file is
absent from the repository snapshot) from the specification's component
design: activity catalog builder, turn processor, and session summarizer.
-/

namespace ChatbotApp

/-- Whitespace test used by the embedding of JavaScript `String.prototype.trim`. -/
def isWs (c : Char) : Bool :=
  c = ' ' || c = '\t' || c = '\n' || c = '\r'

/-- Embedding of JavaScript `String.prototype.trim`: strip leading and trailing
whitespace. -/
def jsTrim (s : String) : String :=
  ⟨((s.toList.dropWhile isWs).reverse.dropWhile isWs).reverse⟩

/-- ASCII lower-casing of one character, as JavaScript `toLowerCase` acts on the
ASCII inputs this app handles. -/
def lowerChar (c : Char) : Char :=
  if 'A' ≤ c && c ≤ 'Z' then Char.ofNat (c.toNat + 32) else c

/-- Embedding of JavaScript `String.prototype.toLowerCase` (ASCII range). -/
def lowerStr (s : String) : String :=
  ⟨s.toList.map lowerChar⟩

/-- Embedding of JavaScript `String.prototype.includes`: substring test. -/
def strContains (hay needle : String) : Bool :=
  hay.toList.tails.any (fun t => needle.toList.isPrefixOf t)

/-- Embedding of JavaScript `String.prototype.startsWith`. -/
def strStartsWith (s p : String) : Bool :=
  p.toList.isPrefixOf s.toList

/-- `mockResponses` from `anthropicService.js`: the rotation table used in demo
mode. -/
def mockResponses : List String :=
  ["Hello! I\x27m here to support you today. How are you feeling?",
   "Thank you for sharing that with me. It\x27s wonderful that you\x27re taking care of yourself. How has your day been so far?",
   "That\x27s great to hear! Remember, it\x27s important to take things one step at a time. Is there anything specific you\x27d like to talk about?",
   "I understand. It can be challenging sometimes. Would you like to do a gentle memory exercise together? It might help you feel more focused.",
   "You\x27re doing wonderfully! Keep up the great work with your daily activities. Have you had a chance to take your medication today?",
   "I\x27m here to listen and support you. If you ever feel confused or need help, don\x27t hesitate to reach out to your caregiver. What would make you feel better right now?",
   "That sounds lovely! Staying active and engaged is so important. Tell me more about what you\x27ve been up to.",
   "I appreciate you sharing your thoughts with me. Remember, every day is a new opportunity. How about we work on something fun together?"]

/-- The ordered context-aware branch chain of `getMockResponse` in
`anthropicService.js`: the first matching cue set fixes the reply, otherwise
`none`. -/
def contextReply? (userMessage : String) : Option String :=
  let message := lowerStr userMessage
  if strContains message "hello" || strContains message "hi" then
    some "Hello! I\x27m your CuraLoop AI companion. I\x27m here to support you and chat whenever you need. How are you feeling today?"
  else if strContains message "help" || strContains message "confused" then
    some "I\x27m here to help you. Take a deep breath - everything is okay. Would you like to talk about what\x27s on your mind? Remember, you can always reach out to your caregiver if you need additional support."
  else if strContains message "memory" || strContains message "remember" || strContains message "forgot" then
    some "It\x27s completely normal to have moments where memory feels challenging. Let\x27s take this step by step together. Can you tell me what you\x27re trying to remember? We can work through it together."
  else if strContains message "medicine" || strContains message "medication" then
    some "Thank you for mentioning your medication! It\x27s wonderful that you\x27re staying on top of your health. Have you taken your medicine today? If you\x27re unsure, it might be good to check with your caregiver."
  else
    none

/-- True when the message hits one of the context-aware branches of
`getMockResponse`. -/
def hasContextCue (userMessage : String) : Bool :=
  (contextReply? userMessage).isSome

/-- `getMockResponse` from `anthropicService.js`. The module-level mutable
`mockResponseIndex` is threaded explicitly: the result is the reply text paired
with the updated rotation index. -/
def getMockResponse (userMessage : String) (mockResponseIndex : Nat) : String × Nat :=
  match contextReply? userMessage with
  | some r => (r, mockResponseIndex)
  | none =>
      (mockResponses.getD (mockResponseIndex % mockResponses.length) "",
       (mockResponseIndex + 1) % mockResponses.length)

/-- The placeholder default of `ANTHROPIC_API_KEY` in `anthropicService.js`. -/
def placeholderKey : String := "your-api-key-here"

/-- `isApiKeyConfigured` from `anthropicService.js`: the environment key is
truthy (present and non-empty) and differs from the placeholder. -/
def isApiKeyConfigured (apiKey : Option String) : Bool :=
  match apiKey with
  | none => false
  | some k => if k = "" then false else if k = placeholderKey then false else true

/-- The `hasValidKey` test inside `sendMessageToClaude`: configured and starting
with the `sk-` prefix of a real key. -/
def hasValidKey (apiKey : Option String) : Bool :=
  match apiKey with
  | none => false
  | some k =>
      if k = "" then false
      else if k = placeholderKey then false
      else strStartsWith k "sk-"

/-- The response object of `sendMessageToClaude`: reply text plus the
`isMock` flag. -/
structure ClaudeResponse where
  text : String
  isMock : Bool
deriving DecidableEq

/-- One entry of the `conversationHistory` array passed to
`sendMessageToClaude` (only the fields the service reads). -/
structure HistMsg where
  sender : String
  text : String

/-- Outcome of the awaited Anthropic API call: either a reply text or one of
the failure modes the service can observe (HTTP 429 rate limit, 401 auth
failure, 500 service unavailable, or any other network error). -/
inductive ApiOutcome where
  | ok (text : String)
  | rateLimited
  | authFailed
  | serviceUnavailable
  | networkError
deriving DecidableEq

/-- True on every non-`ok` outcome of the external API call. -/
def ApiOutcome.isFailure : ApiOutcome → Bool
  | ApiOutcome.ok _ => false
  | _ => true

/-- `sendMessageToClaude` from `anthropicService.js`. When `hasValidKey` holds
the real call is attempted and any thrown error is caught, falling through to
the mock path; otherwise the mock path is taken directly. The function resolves
(never rejects), so its result is `Except.ok` by the structure of the code's
catch. -/
def sendMessageToClaude (apiKey : Option String) (outcome : ApiOutcome)
    (conversationHistory : List HistMsg) (userMessage : String)
    (mockResponseIndex : Nat) : Except String (ClaudeResponse × Nat) :=
  if hasValidKey apiKey then
    match outcome with
    | ApiOutcome.ok t => Except.ok ({ text := t, isMock := false }, mockResponseIndex)
    | _ =>
        let m := getMockResponse userMessage mockResponseIndex
        Except.ok ({ text := m.1, isMock := true }, m.2)
  else
    let m := getMockResponse userMessage mockResponseIndex
    Except.ok ({ text := m.1, isMock := true }, m.2)

/-- Message sender tag in the `ChatScreen` transcript. -/
inductive Sender where
  | user
  | ai
deriving DecidableEq

/-- One message of the `ChatScreen` state (the fields the transcript logic
reads). -/
structure ChatMsg where
  text : String
  sender : Sender
deriving DecidableEq

/-- The error-path reply text built in the catch block of
`ChatScreen.sendMessage`. -/
def errorReplyText (e : String) : String :=
  "Sorry, I encountered an error: " ++ e

/-- Outcome of the awaited `sendMessageToClaude` call as seen by
`ChatScreen.sendMessage`: a resolved reply text or a rejection message. -/
inductive SendOutcome where
  | reply (text : String)
  | failure (errMessage : String)

/-- `sendMessage` from `ChatScreen.js`, as a function on the `messages` state:
empty (after trim) input or an unconfigured key leaves the state unchanged;
otherwise the trimmed patient message is appended, then either the AI reply or
the catch-block error message. -/
def sendMessage (apiKey : Option String) (messages : List ChatMsg)
    (inputText : String) (outcome : SendOutcome) : List ChatMsg :=
  if jsTrim inputText = "" then messages
  else if isApiKeyConfigured apiKey = false then messages
  else
    let userMessage : ChatMsg := { text := jsTrim inputText, sender := Sender.user }
    match outcome with
    | SendOutcome.reply t =>
        messages ++ [userMessage, { text := t, sender := Sender.ai }]
    | SendOutcome.failure e =>
        messages ++ [userMessage, { text := errorReplyText e, sender := Sender.ai }]

/-- A transcript has no lone patient message: every `user` entry is immediately
followed by an `ai` entry. -/
def noLoneUser : List ChatMsg → Bool
  | [] => true
  | m :: rest =>
      match m.sender with
      | Sender.ai => noLoneUser rest
      | Sender.user =>
          match rest with
          | [] => false
          | m2 :: rest2 =>
              match m2.sender with
              | Sender.ai => noLoneUser rest2
              | Sender.user => false

/-- The reply text the screen appends for a given outcome of the service
call. -/
def replyTextFor (outcome : SendOutcome) : String :=
  match outcome with
  | SendOutcome.reply t => t
  | SendOutcome.failure e => errorReplyText e

/-- A submission is accepted (reaches the transcript) when the trimmed input is
non-empty and the API key is configured. -/
def accepted (apiKey : Option String) (inputText : String) : Bool :=
  if jsTrim inputText = "" then false else isApiKeyConfigured apiKey

/-- The complete (patient message, chatbot reply) pair one accepted submission
appends. -/
def turnPair (inputText : String) (outcome : SendOutcome) : List ChatMsg :=
  [{ text := jsTrim inputText, sender := Sender.user },
   { text := replyTextFor outcome, sender := Sender.ai }]

/-- Process a sequence of submissions (each with the outcome its service call
produced) through `sendMessage`, in order. -/
def processAll (apiKey : Option String) (messages : List ChatMsg) :
    List (String × SendOutcome) → List ChatMsg
  | [] => messages
  | p :: rest => processAll apiKey (sendMessage apiKey messages p.1 p.2) rest

end ChatbotApp

namespace Engine

/-- Modelled from the spec: cognitive tiers of the `ChatbotConfig`
(`app/patient/regular_chat.py` and the diagnosis planner that produce it are
absent from the repository snapshot). -/
inductive Tier where
  | severe
  | mild
  | normal
deriving DecidableEq

/-- Modelled from the spec: tier of an MMSE-like score — severe below 18, mild
from 18 up to but excluding 24, normal from 24 on. -/
def tierOfScore (mmse : Nat) : Tier :=
  if mmse < 18 then Tier.severe
  else if mmse < 24 then Tier.mild
  else Tier.normal

/-- Modelled from the spec: per-category activity cap of each tier — severe 3,
mild 5, normal unbounded. -/
def activityCap : Tier → Option Nat
  | Tier.severe => some 3
  | Tier.mild => some 5
  | Tier.normal => none

/-- Modelled from the spec: the derived Activity entity of the catalog builder
(the builder's source file is absent from the repository snapshot). -/
structure Activity where
  category : String
  title : String
  chatPrompt : String
  frequency : String
  difficulty : String
  followUpQuestions : List String
deriving DecidableEq

/-- Modelled from the spec: category-specific prompt template of the catalog
builder. -/
def promptForCategory (cat : String) (desc : String) : String :=
  if cat = "medication" then "Have you taken your medication today?"
  else if cat = "cognitive" then "Would you like to try a short memory exercise?"
  else if cat = "safety" then "Do you feel safe at home right now?"
  else "Let\x27s talk about this part of your plan: " ++ desc

/-- Modelled from the spec: follow-up questions attached per category. -/
def followUpsForCategory (cat : String) : List String :=
  if cat = "medication" then
    ["How are you feeling after taking your medication?",
     "Are you experiencing any side effects?"]
  else
    ["Can you tell me a little more about that?"]

/-- Modelled from the spec: translate one intervention description of a plan
category into one Activity. -/
def mkActivity (cat : String) (desc : String) : Activity :=
  { category := cat
    title := desc
    chatPrompt := promptForCategory cat desc
    frequency := "daily"
    difficulty := "easy"
    followUpQuestions := followUpsForCategory cat }

/-- Modelled from the spec: the untruncated translation of one plan category. -/
def toActivities (cat : String) (interventions : List String) : List Activity :=
  interventions.map (mkActivity cat)

/-- Modelled from the spec: apply the tier's per-category cap, truncating the
category list and preserving its order. -/
def capCategory (tier : Tier) (acts : List Activity) : List Activity :=
  match activityCap tier with
  | some n => acts.take n
  | none => acts

/-- Modelled from the spec: the catalog builder's core — translate each plan
category, cap it, and merge in plan order. -/
def buildActivities (plan : List (String × List String))
    (tier : Tier) : List Activity :=
  plan.flatMap (fun ce => capCategory tier (toActivities ce.1 ce.2))

/-- Modelled from the spec: catalog-builder failure modes. -/
inductive BuildError where
  | invalidPlan
deriving DecidableEq

/-- Modelled from the spec: `build(plan, config)` — fails with
`InvalidPlanError` when the plan has no categories, otherwise returns the
capped, merged catalog. -/
def build (plan : List (String × List String)) (tier : Tier) :
    Except BuildError (List Activity) :=
  if plan.isEmpty then Except.error BuildError.invalidPlan
  else Except.ok (buildActivities plan tier)

/-- Modelled from the spec: per-turn sentiment labels. -/
inductive Sentiment where
  | positive
  | negative
  | neutral
deriving DecidableEq

/-- Modelled from the spec: per-turn engagement labels. -/
inductive Engagement where
  | high
  | medium
  | low
deriving DecidableEq

/-- Modelled from the spec: positive lexical cue set of the deterministic
sentiment classifier. -/
def positiveCues : List String :=
  ["good", "great", "fine", "wonderful", "happy", "better", "well"]

/-- Modelled from the spec: negative lexical cue set of the deterministic
sentiment classifier. -/
def negativeCues : List String :=
  ["bad", "sad", "tired", "confused", "pain", "worse", "lonely"]

/-- Modelled from the spec: deterministic lexical sentiment classification —
first positive cues, then negative cues, else neutral. -/
def classifySentiment (msg : String) : Sentiment :=
  let m := ChatbotApp.lowerStr msg
  if positiveCues.any (fun c => ChatbotApp.strContains m c) then Sentiment.positive
  else if negativeCues.any (fun c => ChatbotApp.strContains m c) then Sentiment.negative
  else Sentiment.neutral

/-- Modelled from the spec: whitespace token count of a message. -/
def tokenCount (msg : String) : Nat :=
  ((msg.toList.map (fun c => if ChatbotApp.isWs c then ' ' else c)).reverse.reverse
    |> fun cs => (String.mk cs).splitOn " " |>.filter (fun t => t ≠ "") |>.length)

/-- Modelled from the spec: engagement from message length buckets — short
(under 10 tokens) low, 10 to 30 medium, over 30 high. -/
def engagementOf (msg : String) : Engagement :=
  let n := tokenCount msg
  if n < 10 then Engagement.low
  else if n ≤ 30 then Engagement.medium
  else Engagement.high

/-- Modelled from the spec: cue tokens associated with an activity category,
used by the completion decision. -/
def categoryCues (cat : String) : List String :=
  if cat = "medication" then ["took", "medicine", "medication", "taken"]
  else if cat = "cognitive" then ["remember", "exercise", "puzzle"]
  else if cat = "safety" then ["safe", "okay"]
  else ["yes", "did"]

/-- Modelled from the spec: the head-of-queue activity's success metric is
satisfied when sentiment is non-negative and the message contains a category
cue token. -/
def activitySatisfied (act : Activity) (msg : String) : Bool :=
  (if classifySentiment msg = Sentiment.negative then false else true)
    && (categoryCues act.category).any
        (fun c => ChatbotApp.strContains (ChatbotApp.lowerStr msg) c)

/-- Modelled from the spec: per-message derived TurnAnalysis value. -/
structure TurnAnalysis where
  sentiment : Sentiment
  engagement : Engagement
  activityCompleted : Bool
deriving DecidableEq

/-- Modelled from the spec: one transcript tuple — timestamp, patient message,
chatbot response, and the recorded turn analysis. -/
structure TurnRec where
  timestamp : Nat
  patientMessage : String
  chatbotResponse : String
  analysis : TurnAnalysis
deriving DecidableEq

/-- Modelled from the spec: one completed-activity record with its completion
time and metrics snapshot. -/
structure CompletionRec where
  activityId : Nat
  completionTime : Nat
  sentiment : Sentiment
  engagement : Engagement
  responseLength : Nat
deriving DecidableEq

/-- Modelled from the spec: session status enum, `completed` terminal. -/
inductive SessionStatus where
  | active
  | completed
deriving DecidableEq

/-- Modelled from the spec: the mutable Session entity. Pending activities are
kept as an ordered queue of activity ids (indices into the catalog). -/
structure EngineSession where
  sessionId : Nat
  patientId : Nat
  status : SessionStatus
  createdAt : Nat
  pending : List Nat
  completed : List CompletionRec
  transcript : List TurnRec
deriving DecidableEq

/-- Modelled from the spec: turn-processor and summarizer failure modes. -/
inductive ChatError where
  | sessionNotFound
  | sessionClosed
deriving DecidableEq

/-- Modelled from the spec: the turn processor's reply value. -/
structure TurnReply where
  chatbotReply : String
  conversationComplete : Bool
  analysis : TurnAnalysis
deriving DecidableEq

/-- Modelled from the spec: the generic fallback activity used when a queue
entry cannot be resolved against the catalog. -/
def genericActivity : Activity :=
  { category := "general"
    title := "General check-in"
    chatPrompt := "How are you feeling today?"
    frequency := "daily"
    difficulty := "easy"
    followUpQuestions := ["Can you tell me a little more about that?"] }

/-- Modelled from the spec: closing message once the queue is empty. -/
def closingMessage : String :=
  "Thank you for chatting with me today. You did a wonderful job. Take care!"

/-- Modelled from the spec: acknowledgement prefix after a completed
activity. -/
def acknowledgement : String :=
  "That\x27s wonderful! I\x27m glad to hear about your progress."

/-- Modelled from the spec: empathetic framing chosen from the turn's
sentiment. -/
def empathyPrefixFor (s : Sentiment) : String :=
  match s with
  | Sentiment.positive => "I\x27m so glad to hear that."
  | Sentiment.negative => "I\x27m sorry you are having a hard time."
  | Sentiment.neutral => "Thank you for sharing that with me."

/-- Modelled from the spec: follow-up question for an unsatisfied activity,
cycling through its list when exhausted. -/
def followUpFor (act : Activity) (turnIndex : Nat) : String :=
  act.followUpQuestions.getD (turnIndex % act.followUpQuestions.length)
    "Can you tell me a little more about that?"

/-- Modelled from the spec: the Turn Processor `handleMessage` of
`app/patient/regular_chat.py` (absent from the repository snapshot). Fails with
`SessionClosedError` on a completed session, leaving it untouched; otherwise
classifies the turn, decides completion of the head-of-queue activity, composes
the reply, and appends the turn to the transcript. -/
def handleMessage (catalog : List Activity) (s : EngineSession)
    (msg : String) (time : Nat) : EngineSession × Except ChatError TurnReply :=
  if s.status = SessionStatus.completed then
    (s, Except.error ChatError.sessionClosed)
  else
    let sentiment := classifySentiment msg
    let engagement := engagementOf msg
    match s.pending with
    | [] =>
        let analysis : TurnAnalysis :=
          { sentiment := sentiment, engagement := engagement, activityCompleted := false }
        let reply := closingMessage
        ({ s with transcript := s.transcript ++
              [{ timestamp := time, patientMessage := msg,
                 chatbotResponse := reply, analysis := analysis }] },
         Except.ok { chatbotReply := reply, conversationComplete := true, analysis := analysis })
    | aid :: rest =>
        let act := (catalog.get? aid).getD genericActivity
        if activitySatisfied act msg then
          let analysis : TurnAnalysis :=
            { sentiment := sentiment, engagement := engagement, activityCompleted := true }
          let record : CompletionRec :=
            { activityId := aid, completionTime := time, sentiment := sentiment,
              engagement := engagement, responseLength := msg.length }
          let reply :=
            match rest with
            | [] => closingMessage
            | nid :: _ =>
                acknowledgement ++ " " ++ ((catalog.get? nid).getD genericActivity).chatPrompt
          ({ s with pending := rest,
                    completed := s.completed ++ [record],
                    transcript := s.transcript ++
                      [{ timestamp := time, patientMessage := msg,
                         chatbotResponse := reply, analysis := analysis }] },
           Except.ok { chatbotReply := reply, conversationComplete := rest.isEmpty,
                       analysis := analysis })
        else
          let analysis : TurnAnalysis :=
            { sentiment := sentiment, engagement := engagement, activityCompleted := false }
          let reply := empathyPrefixFor sentiment ++ " " ++ followUpFor act s.transcript.length
          ({ s with transcript := s.transcript ++
                [{ timestamp := time, patientMessage := msg,
                   chatbotResponse := reply, analysis := analysis }] },
           Except.ok { chatbotReply := reply, conversationComplete := false,
                       analysis := analysis })

/-- Modelled from the spec: one operation of a session's life — a patient
message handled by the turn processor, or an end-session request. -/
inductive SessionOp where
  | message (msg : String) (time : Nat)
  | endOp

/-- Modelled from the spec: apply one operation to a session (end-session on an
already completed session fails and leaves it unchanged). -/
def applyOp (catalog : List Activity) (s : EngineSession) : SessionOp → EngineSession
  | SessionOp.message msg time => (handleMessage catalog s msg time).1
  | SessionOp.endOp =>
      if s.status = SessionStatus.completed then s
      else { s with status := SessionStatus.completed }

/-- Modelled from the spec: run a sequence of operations on a session. -/
def run (catalog : List Activity) (s : EngineSession) (ops : List SessionOp) :
    EngineSession :=
  ops.foldl (fun t op => applyOp catalog t op) s

/-- The activity ids a session accounts for: the pending queue followed by the
ids of the completed records. -/
def idsOf (s : EngineSession) : List Nat :=
  s.pending ++ s.completed.map (fun c => c.activityId)

/-- Count of transcript turns whose recorded sentiment is positive. -/
def posCount (tr : List TurnRec) : Nat :=
  tr.countP (fun r => decide (r.analysis.sentiment = Sentiment.positive))

/-- Count of transcript turns whose recorded sentiment is negative. -/
def negCount (tr : List TurnRec) : Nat :=
  tr.countP (fun r => decide (r.analysis.sentiment = Sentiment.negative))

/-- Count of transcript turns whose recorded sentiment is neutral. -/
def neuCount (tr : List TurnRec) : Nat :=
  tr.countP (fun r => decide (r.analysis.sentiment = Sentiment.neutral))

/-- Modelled from the spec: majority engagement label across the recorded
turns. -/
def overallEngagementOf (tr : List TurnRec) : Engagement :=
  let hi := tr.countP (fun r => decide (r.analysis.engagement = Engagement.high))
  let md := tr.countP (fun r => decide (r.analysis.engagement = Engagement.medium))
  let lo := tr.countP (fun r => decide (r.analysis.engagement = Engagement.low))
  if hi ≥ md && hi ≥ lo then Engagement.high
  else if md ≥ lo then Engagement.medium
  else Engagement.low

/-- The caregiver follow-up recommendation text. -/
def followUpRecommendation : String := "suggest caregiver follow-up"

/-- Modelled from the spec: the end-of-session SessionSummary report. -/
structure SessionSummary where
  sessionId : Nat
  durationMinutes : Nat
  totalActivities : Nat
  totalInteractions : Nat
  sentimentDistribution : Nat × Nat × Nat
  completedActivities : List CompletionRec
  overallEngagement : Engagement
  recommendations : List String
deriving DecidableEq

/-- Modelled from the spec: the Session Summarizer of
`app/patient/regular_chat.py` (absent from the repository snapshot). Aggregates
the already-recorded TurnAnalysis values of the transcript — no recomputation
of sentiment — and appends the caregiver follow-up recommendation exactly when
negative turns exceed half of all turns or fewer than half of the queued
activities were completed. -/
def summarize (s : EngineSession) (endTime : Nat) : SessionSummary :=
  let queued := s.pending.length + s.completed.length
  let recs :=
    if 2 * negCount s.transcript > s.transcript.length ∨
        2 * s.completed.length < queued then
      [followUpRecommendation]
    else []
  { sessionId := s.sessionId
    durationMinutes := endTime - s.createdAt
    totalActivities := queued
    totalInteractions := s.transcript.length
    sentimentDistribution :=
      (posCount s.transcript, negCount s.transcript, neuCount s.transcript)
    completedActivities := s.completed
    overallEngagement := overallEngagementOf s.transcript
    recommendations := recs }

/-- Modelled from the spec: `endSession` logic — flip the session's status to
the terminal `completed` state and emit the summary computed purely from the
stored record. -/
def finalizeSession (s : EngineSession) (endTime : Nat) :
    EngineSession × SessionSummary :=
  ({ s with status := SessionStatus.completed }, summarize s endTime)

end Engine

namespace ChatbotApp

/-- C1: for every turn in which the external language call fails (rate
limited, auth failed, service unavailable, or any other error),
`sendMessageToClaude` still resolves with the deterministic mock fallback
reply: the message-sending operation completes and raises no error to its
caller. -/
theorem sendMessageToClaude_fallback_on_failure (apiKey : Option String)
    (outcome : ApiOutcome) (hist : List HistMsg) (userMessage : String)
    (idx : Nat) (h : outcome.isFailure = true) :
    sendMessageToClaude apiKey outcome hist userMessage idx =
      Except.ok ({ text := (getMockResponse userMessage idx).1, isMock := true },
        (getMockResponse userMessage idx).2) := by
  cases outcome with
  | ok t => simp [ApiOutcome.isFailure] at h
  | rateLimited =>
      by_cases hk : hasValidKey apiKey = true <;> simp [sendMessageToClaude, hk]
  | authFailed =>
      by_cases hk : hasValidKey apiKey = true <;> simp [sendMessageToClaude, hk]
  | serviceUnavailable =>
      by_cases hk : hasValidKey apiKey = true <;> simp [sendMessageToClaude, hk]
  | networkError =>
      by_cases hk : hasValidKey apiKey = true <;> simp [sendMessageToClaude, hk]

/-- C1 witness: a rate-limited call at a concrete input completes with the
mock fallback. -/
theorem sendMessageToClaude_fallback_on_failure_witness :
    ApiOutcome.rateLimited.isFailure = true ∧
      sendMessageToClaude none ApiOutcome.rateLimited [] "hello" 0 =
        Except.ok ({ text := (getMockResponse "hello" 0).1, isMock := true },
          (getMockResponse "hello" 0).2) :=
  ⟨rfl, sendMessageToClaude_fallback_on_failure none ApiOutcome.rateLimited []
    "hello" 0 rfl⟩

/-- C2 counterexample: two successive invocations of the fallback path with
the same input message return different reply texts — the mock rotation index
advances between the calls, so the fallback reply is not determined by the
input message and conversation state alone. -/
theorem getMockResponse_not_message_deterministic :
    (getMockResponse "abc" 0).1 ≠
      (getMockResponse "abc" (getMockResponse "abc" 0).2).1 := by
  decide

/-- C2 (amended): the fallback reply is a pure function of the message and
the rotation index, and for messages matching a context cue (hello, hi, help,
confused, memory, remember, forgot, medicine, medication) it does not depend
on the rotation index at all: any two invocations with such a message produce
the same reply text; for other messages the reply rotates through a fixed
list, so successive invocations with the same message may differ. -/
theorem getMockResponse_deterministic_on_context_cues (msg : String)
    (i j : Nat) (h : hasContextCue msg = true) :
    (getMockResponse msg i).1 = (getMockResponse msg j).1 := by
  unfold hasContextCue at h
  cases hc : contextReply? msg with
  | none => rw [hc] at h; simp at h
  | some r => simp [getMockResponse, hc]

/-- C2 witness: the hello cue fixes the fallback reply across distinct
rotation states. -/
theorem getMockResponse_deterministic_on_context_cues_witness :
    hasContextCue "hello" = true ∧
      (getMockResponse "hello" 0).1 = (getMockResponse "hello" 5).1 :=
  ⟨by decide, getMockResponse_deterministic_on_context_cues "hello" 0 5 (by decide)⟩

/-- C10: any non-empty key other than the placeholder that does not start
with "sk-" counts as configured for `isApiKeyConfigured`, yet
`sendMessageToClaude` takes the mock path for every outcome and returns
`isMock = true`: the two functions disagree on what a configured key is. -/
theorem configured_key_still_mocked (k : String) (h1 : k ≠ "")
    (h2 : k ≠ placeholderKey) (h3 : strStartsWith k "sk-" = false) :
    isApiKeyConfigured (some k) = true ∧
      ∀ (outcome : ApiOutcome) (hist : List HistMsg) (msg : String) (idx : Nat),
        sendMessageToClaude (some k) outcome hist msg idx =
          Except.ok ({ text := (getMockResponse msg idx).1, isMock := true },
            (getMockResponse msg idx).2) := by
  have hk : hasValidKey (some k) = false := by
    simp [hasValidKey, h1, h2, h3]
  refine ⟨by simp [isApiKeyConfigured, h1, h2], ?_⟩
  intro outcome hist msg idx
  simp [sendMessageToClaude, hk]

/-- C10 witness: the key "abc123" is configured but even a successful API
outcome is answered from the mock path. -/
theorem configured_key_still_mocked_witness :
    isApiKeyConfigured (some "abc123") = true ∧
      sendMessageToClaude (some "abc123") (ApiOutcome.ok "real reply") [] "msg" 0 =
        Except.ok ({ text := (getMockResponse "msg" 0).1, isMock := true },
          (getMockResponse "msg" 0).2) :=
  ⟨(configured_key_still_mocked "abc123" (by decide) (by decide) (by decide)).1,
   (configured_key_still_mocked "abc123" (by decide) (by decide) (by decide)).2
     (ApiOutcome.ok "real reply") [] "msg" 0⟩

/-- Appending one complete (patient, reply) pair preserves the no-lone-user
transcript shape. -/
theorem noLoneUser_append_pair (t1 t2 : String) :
    ∀ l : List ChatMsg,
      noLoneUser (l ++ [{ text := t1, sender := Sender.user },
        { text := t2, sender := Sender.ai }]) = noLoneUser l
  | [] => rfl
  | { text := _, sender := Sender.ai } :: rest => by
      simpa [noLoneUser] using noLoneUser_append_pair t1 t2 rest
  | { text := _, sender := Sender.user } :: [] => by
      simp [noLoneUser]
  | { text := _, sender := Sender.user } ::
      ({ text := _, sender := Sender.ai } :: rest2) => by
      simpa [noLoneUser] using noLoneUser_append_pair t1 t2 rest2
  | { text := _, sender := Sender.user } ::
      ({ text := _, sender := Sender.user } :: _) => by
      simp [noLoneUser]

/-- C3: each turn's writes are all-or-nothing — `sendMessage` either leaves
the transcript unchanged or appends one complete patient-message/chatbot-reply
pair (a fallback reply is applied on every dependency failure), so the
transcript never gains a gap and never ends with a lone patient message
lacking its chatbot response. -/
theorem sendMessage_all_or_nothing (apiKey : Option String)
    (messages : List ChatMsg) (inputText : String) (outcome : SendOutcome)
    (h : noLoneUser messages = true) :
    (sendMessage apiKey messages inputText outcome = messages ∨
      sendMessage apiKey messages inputText outcome =
        messages ++ turnPair inputText outcome) ∧
      noLoneUser (sendMessage apiKey messages inputText outcome) = true := by
  unfold sendMessage
  by_cases he : jsTrim inputText = ""
  · simp [he, h]
  · by_cases hc : isApiKeyConfigured apiKey = false
    · simp [he, hc, h]
    · cases outcome with
      | reply t =>
          refine ⟨Or.inr ?_, ?_⟩
          · simp [he, hc, turnPair, replyTextFor]
          · simp [he, hc, noLoneUser_append_pair, h]
      | failure e =>
          refine ⟨Or.inr ?_, ?_⟩
          · simp [he, hc, turnPair, replyTextFor]
          · simp [he, hc, noLoneUser_append_pair, h]

/-- C3 witness: a concrete successful turn appends exactly its pair. -/
theorem sendMessage_all_or_nothing_witness :
    noLoneUser [] = true ∧
      ((sendMessage (some "abc123") [] "hi there" (SendOutcome.reply "ok") = [] ∨
        sendMessage (some "abc123") [] "hi there" (SendOutcome.reply "ok") =
          [] ++ turnPair "hi there" (SendOutcome.reply "ok")) ∧
        noLoneUser (sendMessage (some "abc123") [] "hi there"
          (SendOutcome.reply "ok")) = true) :=
  ⟨rfl, sendMessage_all_or_nothing (some "abc123") [] "hi there"
    (SendOutcome.reply "ok") rfl⟩

/-- C6: patient messages processed through the chat screen appear in the
transcript in exactly the order they were submitted, each immediately paired
with the chatbot reply produced for it: processing a sequence of submissions
appends, in submission order, one complete pair per accepted submission. -/
theorem processAll_transcript_order (apiKey : Option String)
    (messages : List ChatMsg) (inputs : List (String × SendOutcome)) :
    processAll apiKey messages inputs =
      messages ++ (inputs.filter (fun p => accepted apiKey p.1)).flatMap
        (fun p => turnPair p.1 p.2) := by
  induction inputs generalizing messages with
  | nil => simp [processAll]
  | cons p rest ih =>
      obtain ⟨input, outcome⟩ := p
      unfold processAll
      by_cases he : jsTrim input = ""
      · have hs : sendMessage apiKey messages input outcome = messages := by
          simp [sendMessage, he]
        have ha : accepted apiKey input = false := by simp [accepted, he]
        simp [hs, ha, ih]
      · by_cases hc : isApiKeyConfigured apiKey = true
        · have hs : sendMessage apiKey messages input outcome =
              messages ++ turnPair input outcome := by
            cases outcome <;> simp [sendMessage, he, hc, turnPair, replyTextFor]
          have ha : accepted apiKey input = true := by simp [accepted, he, hc]
          simp [hs, ha, ih, List.append_assoc]
        · have hcf : isApiKeyConfigured apiKey = false := by
            cases hv : isApiKeyConfigured apiKey
            · rfl
            · exact absurd hv hc
          have hs : sendMessage apiKey messages input outcome = messages := by
            simp [sendMessage, he, hcf]
          have ha : accepted apiKey input = false := by simp [accepted, he, hcf]
          simp [hs, ha, ih]

end ChatbotApp

namespace Engine

/-- C4: the catalog builder applies the cognitive-tier cap per category before
merging — every category's contribution is a prefix of its untruncated
translation (intra-category order preserved), of length at most 3 under the
severe tier (score below 18), at most 5 under the mild tier (18 up to 24),
and untruncated under the normal tier (24 and above). -/
theorem buildActivities_cap (mmse : Nat) (plan : List (String × List String))
    (cat : String) (ivs : List String) :
    buildActivities plan (tierOfScore mmse) =
        plan.flatMap
          (fun ce => capCategory (tierOfScore mmse) (toActivities ce.1 ce.2)) ∧
      capCategory (tierOfScore mmse) (toActivities cat ivs) <+:
        toActivities cat ivs ∧
      (mmse < 18 →
        (capCategory (tierOfScore mmse) (toActivities cat ivs)).length ≤ 3) ∧
      (18 ≤ mmse → mmse < 24 →
        (capCategory (tierOfScore mmse) (toActivities cat ivs)).length ≤ 5) ∧
      (24 ≤ mmse →
        capCategory (tierOfScore mmse) (toActivities cat ivs) =
          toActivities cat ivs) := by
  refine ⟨rfl, ?_, ?_, ?_, ?_⟩
  · unfold capCategory
    cases activityCap (tierOfScore mmse) with
    | none => exact List.prefix_rfl
    | some n => exact List.take_prefix n _
  · intro h
    have ht : tierOfScore mmse = Tier.severe := by simp [tierOfScore, h]
    rw [ht]
    exact List.length_take_le 3 _
  · intro h1 h2
    have hn : ¬ mmse < 18 := by omega
    have ht : tierOfScore mmse = Tier.mild := by simp [tierOfScore, hn, h2]
    rw [ht]
    exact List.length_take_le 5 _
  · intro h
    have hn1 : ¬ mmse < 18 := by omega
    have hn2 : ¬ mmse < 24 := by omega
    have ht : tierOfScore mmse = Tier.normal := by simp [tierOfScore, hn1, hn2]
    rw [ht]
    rfl

/-- C4 witness: concrete caps at severe (score 10), mild (score 20), and
normal (score 30) tiers. -/
theorem buildActivities_cap_witness :
    (capCategory (tierOfScore 10)
        (toActivities "medication" ["a", "b", "c", "d"])).length ≤ 3 ∧
      (capCategory (tierOfScore 20)
        (toActivities "medication" ["a", "b", "c", "d", "e", "f"])).length ≤ 5 ∧
      capCategory (tierOfScore 30) (toActivities "medication" ["a", "b", "c", "d"]) =
        toActivities "medication" ["a", "b", "c", "d"] :=
  ⟨(buildActivities_cap 10 [("medication", ["a", "b", "c", "d"])] "medication"
      ["a", "b", "c", "d"]).2.2.1 (by decide),
   (buildActivities_cap 20 [] "medication"
      ["a", "b", "c", "d", "e", "f"]).2.2.2.1 (by decide) (by decide),
   (buildActivities_cap 30 [] "medication" ["a", "b", "c", "d"]).2.2.2.2 (by decide)⟩

/-- Moving the head of the pending queue to the back of the completed ids is a
permutation of the combined list. -/
theorem move_head_perm (aid : Nat) (rest mc : List Nat) :
    List.Perm (rest ++ (mc ++ [aid])) ((aid :: rest) ++ mc) := by
  have h1 : rest ++ (mc ++ [aid]) = (rest ++ mc) ++ [aid] :=
    (List.append_assoc rest mc [aid]).symm
  rw [h1]
  have h2 : List.Perm ((rest ++ mc) ++ [aid]) ([aid] ++ (rest ++ mc)) :=
    List.perm_append_comm
  simpa using h2

/-- One turn of the processor only moves ids between the pending queue and the
completed records: the combined id list is a permutation of the old one. -/
theorem handleMessage_ids_perm (catalog : List Activity) (s : EngineSession)
    (msg : String) (time : Nat) :
    List.Perm (idsOf (handleMessage catalog s msg time).1) (idsOf s) := by
  obtain ⟨sid, pid, st, ca, pending, completed, tr⟩ := s
  by_cases h : st = SessionStatus.completed
  · simp [handleMessage, h]
  · cases pending with
    | nil => simp [handleMessage, h, idsOf]
    | cons aid rest =>
        by_cases hs :
            activitySatisfied ((catalog.get? aid).getD genericActivity) msg = true
        · unfold handleMessage idsOf
          rw [if_neg h]
          dsimp only
          rw [if_pos hs]
          dsimp only
          rw [List.map_append]
          exact move_head_perm aid rest _
        · unfold handleMessage idsOf
          rw [if_neg h]
          dsimp only
          rw [if_neg hs]

/-- Any sequence of operations preserves the combined id list up to
permutation. -/
theorem run_ids_perm (catalog : List Activity) (ops : List SessionOp) :
    ∀ s : EngineSession, List.Perm (idsOf (run catalog s ops)) (idsOf s) := by
  induction ops with
  | nil => intro s; exact List.Perm.refl _
  | cons op rest ih =>
      intro s
      have hstep : List.Perm (idsOf (applyOp catalog s op)) (idsOf s) := by
        cases op with
        | message msg time => exact handleMessage_ids_perm catalog s msg time
        | endOp =>
            by_cases h : s.status = SessionStatus.completed <;>
              simp [applyOp, h, idsOf]
      have hrest := ih (applyOp catalog s op)
      have hrun : run catalog s (op :: rest) = run catalog (applyOp catalog s op) rest := rfl
      rw [hrun]
      exact hrest.trans hstep

/-- C5: for every session and every sequence of operations on it, the combined
multiset of activity ids (pending queue plus completed records) is preserved —
the union of the two collections never shrinks, ids only move from pending to
completed — and when the ids start out distinct, the pending and completed
sets stay disjoint. -/
theorem session_ids_invariant (catalog : List Activity) (s : EngineSession)
    (ops : List SessionOp) (h : (idsOf s).Nodup) :
    List.Perm (idsOf (run catalog s ops)) (idsOf s) ∧
      (idsOf (run catalog s ops)).Nodup ∧
      List.Disjoint (run catalog s ops).pending
        ((run catalog s ops).completed.map (fun c => c.activityId)) := by
  have hperm := run_ids_perm catalog ops s
  have hnd : (idsOf (run catalog s ops)).Nodup := hperm.symm.nodup h
  refine ⟨hperm, hnd, ?_⟩
  have hnd2 : ((run catalog s ops).pending ++
      (run catalog s ops).completed.map (fun c => c.activityId)).Nodup := hnd
  exact (List.nodup_append.1 hnd2).2.2

/-- Sample catalog used by the session-invariant witness. -/
def sampleCatalog : List Activity := [mkActivity "medication" "check meds"]

/-- Sample well-formed active session used by the session-invariant witness. -/
def sampleSession : EngineSession :=
  { sessionId := 1, patientId := 2, status := SessionStatus.active,
    createdAt := 0, pending := [0, 1], completed := [], transcript := [] }

/-- Sample operation sequence used by the session-invariant witness. -/
def sampleOps : List SessionOp :=
  [SessionOp.message "plain" 1, SessionOp.endOp]

/-- C5 witness: the invariant at a concrete session and operation sequence. -/
theorem session_ids_invariant_witness :
    List.Perm (idsOf (run sampleCatalog sampleSession sampleOps))
        (idsOf sampleSession) ∧
      (idsOf (run sampleCatalog sampleSession sampleOps)).Nodup ∧
      List.Disjoint (run sampleCatalog sampleSession sampleOps).pending
        ((run sampleCatalog sampleSession sampleOps).completed.map
          (fun c => c.activityId)) :=
  session_ids_invariant sampleCatalog sampleSession sampleOps (by decide)

/-- C7: sending a message to a session whose status is completed fails with
`SessionClosedError` and leaves the session unchanged; in particular the
transcript length after the failed call equals the length before it. -/
theorem handleMessage_closed_session (catalog : List Activity)
    (s : EngineSession) (msg : String) (time : Nat)
    (h : s.status = SessionStatus.completed) :
    (handleMessage catalog s msg time).1 = s ∧
      (handleMessage catalog s msg time).2 =
        Except.error ChatError.sessionClosed ∧
      (handleMessage catalog s msg time).1.transcript.length =
        s.transcript.length := by
  refine ⟨?_, ?_, ?_⟩ <;> simp [handleMessage, h]

/-- Sample completed session used by the closed-session witness. -/
def closedSession : EngineSession :=
  { sessionId := 1, patientId := 2, status := SessionStatus.completed,
    createdAt := 0, pending := [0], completed := [], transcript := [] }

/-- C7 witness: a concrete message against a completed session fails and
changes nothing. -/
theorem handleMessage_closed_session_witness :
    (handleMessage [] closedSession "hello" 3).1 = closedSession ∧
      (handleMessage [] closedSession "hello" 3).2 =
        Except.error ChatError.sessionClosed ∧
      (handleMessage [] closedSession "hello" 3).1.transcript.length =
        closedSession.transcript.length :=
  handleMessage_closed_session [] closedSession "hello" 3 rfl

/-- A transcript turn with the given recorded sentiment, used by the summary
scenario. -/
def turnWith (sent : Sentiment) : TurnRec :=
  { timestamp := 0, patientMessage := "", chatbotResponse := "",
    analysis := { sentiment := sent, engagement := Engagement.high,
                  activityCompleted := true } }

/-- A completion record for activity id `i`, used by the summary scenario. -/
def completionWith (i : Nat) : CompletionRec :=
  { activityId := i, completionTime := 0, sentiment := Sentiment.positive,
    engagement := Engagement.high, responseLength := 10 }

/-- Scenario D session: 8 positive and 2 negative turns out of 10, and all 5
of 5 queued activities completed. -/
def scenarioSession : EngineSession :=
  { sessionId := 7, patientId := 1, status := SessionStatus.active,
    createdAt := 0, pending := [],
    completed := (List.range 5).map completionWith,
    transcript := List.replicate 8 (turnWith Sentiment.positive) ++
      List.replicate 2 (turnWith Sentiment.negative) }

/-- C8: the summary appends the caregiver follow-up recommendation exactly
when negative-sentiment turns exceed half of the total turns or fewer than
half of the queued activities were completed; the scenario session with 8
positive and 2 negative turns of 10 and 5 of 5 activities completed yields
sentiment distribution (8, 2, 0) and an empty recommendations list. -/
theorem summarize_recommendation_rule :
    (∀ (s : EngineSession) (endTime : Nat),
        followUpRecommendation ∈ (summarize s endTime).recommendations ↔
          (2 * negCount s.transcript > s.transcript.length ∨
            2 * s.completed.length <
              s.pending.length + s.completed.length)) ∧
      (summarize scenarioSession 10).sentimentDistribution = (8, 2, 0) ∧
      (summarize scenarioSession 10).recommendations = [] := by
  refine ⟨fun s endTime => ?_, by decide, by decide⟩
  unfold summarize
  by_cases hcond : (2 * negCount s.transcript > s.transcript.length ∨
      2 * s.completed.length < s.pending.length + s.completed.length)
  · simp only [hcond, if_true]
    simp [hcond]
  · simp [hcond]

/-- C9: session summarization is idempotent and pure over the stored record —
running the end-session logic again on the session it already finalized yields
the identical summary, and the sentiment distribution aggregates only the
already-recorded TurnAnalysis values of the transcript. -/
theorem finalizeSession_idempotent :
    (∀ (s : EngineSession) (endTime : Nat),
        (finalizeSession (finalizeSession s endTime).1 endTime).2 =
          (finalizeSession s endTime).2) ∧
      ∀ (s : EngineSession) (endTime : Nat),
        (summarize s endTime).sentimentDistribution =
          (posCount s.transcript, negCount s.transcript,
            neuCount s.transcript) := by
  constructor
  · intro s endTime
    cases s
    rfl
  · intro s endTime
    rfl

end Engine
